import Mathlib

/-!
Verification of the M3UProcessor backend (src/backend/main.py) against its
natural-language specification.  The Python helpers and endpoint bodies that
the claims touch are shallowly embedded as executable Lean definitions over
`String` / `List Char`; the external `re` library's full regex engine is
modelled as an explicit backend parameter where only its success/failure
shape matters, and concretely where the source uses it on literal patterns.
-/

namespace M3U

/-- MAX_CONTENT_SIZE from main.py line 29: `5 * 1024 * 1024` bytes. -/
def MAX_CONTENT_SIZE : Nat := 5 * 1024 * 1024

/-- Case-insensitive character comparison, modelling Python `re.IGNORECASE`
matching of a literal character (both sides lowercased). -/
def charCI (a b : Char) : Bool := a.toLower == b.toLower

/-- Case-sensitive character comparison (Python `str` equality per char). -/
def charEq (a b : Char) : Bool := a == b

/-- Does `pat` match (under `eq`) at the very start of `l`?
Models testing a literal pattern at one position of the subject string. -/
def matchPref (eq : Char → Char → Bool) : List Char → List Char → Bool
  | [], _ => true
  | _ :: _, [] => false
  | a :: pa, b :: pb => eq a b && matchPref eq pa pb

/-- Core scan of Python's non-overlapping replace-all over a subject string:
`str.replace` (with `eq := charEq`) and `re.sub` on an escaped literal
pattern (with `eq := charCI` when `re.IGNORECASE` is set).  The pattern is
`p0 :: ptail` (replace is only reached with a non-empty pattern, because
`apply_rules` skips empty `search`).  `skip` counts characters of an
already-matched occurrence still to be consumed without output; a fresh scan
starts with `skip = 0`. -/
def subScan (eq : Char → Char → Bool) (p0 : Char) (ptail repl : List Char) :
    Nat → List Char → List Char
  | _, [] => []
  | skip + 1, _ :: rest => subScan eq p0 ptail repl skip rest
  | 0, c :: rest =>
    if matchPref eq (p0 :: ptail) (c :: rest) then
      repl ++ subScan eq p0 ptail repl ptail.length rest
    else
      c :: subScan eq p0 ptail repl 0 rest

/-- Python `content.replace(search, replace)` for non-empty `search`
(main.py line 432). -/
def pyStrReplace (content : String) (p0 : Char) (ptail repl : List Char) : String :=
  String.mk (subScan charEq p0 ptail repl 0 content.data)

/-- Python `re` replacement-template expansion (`sre_parse.parse_template`)
for a pattern with no capture groups, as invoked by
`re.compile(re.escape(search), re.IGNORECASE).sub(replace, content)`
(main.py lines 434-435).  `\\` and the known letter escapes expand to one
character, `\0` starts an octal escape, any group reference (`\1`..`\9`,
`\g`) is an "invalid group reference" error because the escaped-literal
pattern has no groups, an unknown ASCII-letter escape is a "bad escape"
error, a trailing backslash is an error, and a backslash before any other
character is kept verbatim. -/
def parseTemplate : List Char → Except String (List Char)
  | [] => Except.ok []
  | ['\\'] => Except.error "bad escape (end of pattern)"
  | '\\' :: '0' :: d1 :: d2 :: rest =>
    if ('0' ≤ d1 && d1 ≤ '7') && ('0' ≤ d2 && d2 ≤ '7') then
      (parseTemplate rest).map
        (fun t => Char.ofNat (8 * (d1.toNat - 48) + (d2.toNat - 48)) :: t)
    else if '0' ≤ d1 && d1 ≤ '7' then
      (parseTemplate (d2 :: rest)).map (fun t => Char.ofNat (d1.toNat - 48) :: t)
    else (parseTemplate (d1 :: d2 :: rest)).map (fun t => '\x00' :: t)
  | ['\\', '0', d1] =>
    if '0' ≤ d1 && d1 ≤ '7' then Except.ok [Char.ofNat (d1.toNat - 48)]
    else (parseTemplate [d1]).map (fun t => '\x00' :: t)
  | ['\\', '0'] => Except.ok ['\x00']
  | '\\' :: c :: rest =>
    if c = '\\' then (parseTemplate rest).map (fun t => '\\' :: t)
    else if c = 'a' then (parseTemplate rest).map (fun t => '\x07' :: t)
    else if c = 'b' then (parseTemplate rest).map (fun t => '\x08' :: t)
    else if c = 'f' then (parseTemplate rest).map (fun t => '\x0c' :: t)
    else if c = 'n' then (parseTemplate rest).map (fun t => '\n' :: t)
    else if c = 'r' then (parseTemplate rest).map (fun t => '\x0d' :: t)
    else if c = 't' then (parseTemplate rest).map (fun t => '\t' :: t)
    else if c = 'v' then (parseTemplate rest).map (fun t => '\x0b' :: t)
    else if '1' ≤ c && c ≤ '9' then Except.error "invalid group reference"
    else if c = 'g' then Except.error "invalid group reference"
    else if ('a' ≤ c && c ≤ 'z') || ('A' ≤ c && c ≤ 'Z') then
      Except.error "bad escape"
    else (parseTemplate rest).map (fun t => '\\' :: c :: t)
  | c :: rest => (parseTemplate rest).map (fun t => c :: t)

/-- One transformation rule, mirroring the dict fields read by
`apply_rules` (main.py lines 416-419). -/
structure PyRule where
  search : String
  replace : String
  is_regex : Bool
  case_sensitive : Bool
deriving DecidableEq

/-- The behavior of Python's `re.sub(search, replace, content, flags)` call
on an arbitrary (possibly invalid) regex pattern is external to this file;
it is passed in as a backend function, where `none` models the call raising
`re.error` (invalid pattern, bad template, or matching failure) and
`some c` models a successful substitution returning `c`.  Arguments are
search, replace, case_sensitive, content. -/
def RegexBackend := String → String → Bool → String → Option String

/-- One iteration of the rule loop in `apply_rules` (main.py lines 415-435).
`Except.error` models a Python exception escaping `apply_rules` (only
possible from replacement-template parsing in the case-insensitive literal
branch, which the source does not wrap in try/except); the regex branch
catches `re.error` and keeps the document (`except re.error: pass`). -/
def applyRule (reSub : RegexBackend) (content : String) (r : PyRule) :
    Except String String :=
  match r.search.data with
  | [] => Except.ok content
  | p0 :: ptail =>
    if r.is_regex then
      match reSub r.search r.replace r.case_sensitive content with
      | none => Except.ok content
      | some c => Except.ok c
    else if r.case_sensitive then
      Except.ok (pyStrReplace content p0 ptail r.replace.data)
    else
      match parseTemplate r.replace.data with
      | Except.error e => Except.error e
      | Except.ok expanded =>
        Except.ok (String.mk (subScan charCI p0 ptail expanded 0 content.data))

/-- Model of `apply_rules(content, rules)` (main.py lines 413-437): fold the rules in
list order, each rule's output feeding the next; an escaping exception
aborts the remaining rules. -/
def apply_rules (reSub : RegexBackend) (content : String) :
    List PyRule → Except String String
  | [] => Except.ok content
  | r :: rs =>
    match applyRule reSub content r with
    | Except.error e => Except.error e
    | Except.ok c => apply_rules reSub c rs

/-! ## DocumentStats (count_channels / get_m3u_stats, main.py lines 440-461) -/

/-- The literal pattern of `re.findall(r'#EXTINF:', content, re.IGNORECASE)`. -/
def extinfPat : List Char := ['#', 'E', 'X', 'T', 'I', 'N', 'F', ':']

/-- Non-overlapping left-to-right count of case-insensitive occurrences of
`p0 :: ptail`, as `re.findall` performs on a literal pattern; `skip` is the
number of characters of the current match still to pass over. -/
def countScan (p0 : Char) (ptail : List Char) : Nat → List Char → Nat
  | _, [] => 0
  | skip + 1, _ :: rest => countScan p0 ptail skip rest
  | 0, c :: rest =>
    if matchPref charCI (p0 :: ptail) (c :: rest) then
      countScan p0 ptail ptail.length rest + 1
    else
      countScan p0 ptail 0 rest

/-- Model of `count_channels(content)` (main.py lines 440-442):
`len(re.findall(r'#EXTINF:', content, re.IGNORECASE))`. -/
def count_channels (content : String) : Nat :=
  countScan '#' ['E', 'X', 'T', 'I', 'N', 'F', ':'] 0 content.data

/-- Python `content.split('\n')` (main.py line 447). -/
def splitNl : List Char → List (List Char)
  | [] => [[]]
  | '\n' :: rest => [] :: splitNl rest
  | c :: rest =>
    match splitNl rest with
    | [] => [[c]]
    | l :: ls => (c :: l) :: ls

/-- The literal part of the pattern `group-title="` (13 characters),
matched case-insensitively by `re.search(r'group-title="([^"]*)"', line,
re.IGNORECASE)`. -/
def gtPat : List Char :=
  ['g', 'r', 'o', 'u', 'p', '-', 't', 'i', 't', 'l', 'e', '=', '"']

/-- After the opening quote, `([^"]*)"` captures the characters up to the
next `"`, and fails when no closing quote follows. -/
def extractQuoted (l : List Char) : Option (List Char) :=
  if l.contains '"' then some (l.takeWhile (fun c => c ≠ '"')) else none

/-- Leftmost match of `re.search(r'group-title="([^"]*)"', line,
re.IGNORECASE)` (main.py line 452): the first position where the literal
prefix matches case-insensitively and a closing quote follows; returns the
captured group. -/
def lineGroupTitle : List Char → Option (List Char)
  | [] => none
  | c :: rest =>
    if matchPref charCI gtPat (c :: rest) then
      match extractQuoted (rest.drop 12) with
      | some v => some v
      | none => lineGroupTitle rest
    else lineGroupTitle rest

/-- The record returned by `get_m3u_stats` (main.py lines 456-461). -/
structure M3UStats where
  channels : Nat
  groups : Nat
  lines : Nat
  size : Nat
deriving DecidableEq

/-- Model of `get_m3u_stats(content)` (main.py lines 445-461): split on newlines,
count channels, collect the first `group-title` captured per line into a
set, and report counts plus the UTF-8 byte size. -/
def get_m3u_stats (content : String) : M3UStats :=
  let lines := splitNl content.data
  { channels := count_channels content
    groups := ((lines.filterMap lineGroupTitle).dedup).length
    lines := lines.length
    size := content.utf8ByteSize }

/-- Modelled from the spec (§4.2, for comparison with the source): the
number of lines whose start is the media-entry marker, matched
case-insensitively — "entries = count of lines recognized as a media-entry
marker (case-insensitive structural tag at line start)". -/
def specEntriesLineStart (content : String) : Nat :=
  (splitNl content.data).countP (fun l => matchPref charCI extinfPat l)

/-- Number of positions of `l` at which the marker matches
case-insensitively (the positional reading of "occurrences"). -/
def extinfPositions (l : List Char) : Nat :=
  l.tails.countP (fun t => matchPref charCI extinfPat t)

/-- Modelled from the spec (§4.2, for comparison with the source): every
`group-title="value"` token found anywhere on a line, not only the first
one per line. -/
def allGroupTitleValues : List Char → List (List Char)
  | [] => []
  | c :: rest =>
    if matchPref charCI gtPat (c :: rest) then
      match extractQuoted (rest.drop 12) with
      | some v => v :: allGroupTitleValues rest
      | none => allGroupTitleValues rest
    else allGroupTitleValues rest

/-- Modelled from the spec (§4.1, for comparison with the source): literal
case-insensitive replacement that preserves the replacement text verbatim —
every case-insensitive occurrence of `search` is replaced by the characters
of `repl` exactly as given. -/
def ciReplaceVerbatim (search repl content : String) : String :=
  match search.data with
  | [] => content
  | p0 :: ptail => String.mk (subScan charCI p0 ptail repl.data 0 content.data)

/-! ## Raw-content token normalization (get_raw_m3u, main.py lines 991-999) -/

/-- Model of `token.replace('.m3u', '')` (main.py line 996): Python `str.replace`
with search `".m3u"` and empty replacement. -/
def get_raw_m3u_token (token : String) : String :=
  pyStrReplace token '.' ['m', '3', 'u'] []

/-! ## Size gates (main.py lines 911, 935, 978) -/

/-- The gate at the head of `process_m3u` (main.py lines 911-912):
`if len(data.content.encode('utf-8')) > MAX_CONTENT_SIZE: raise`. -/
def process_m3u_gate (content : String) : Except String Unit :=
  if content.utf8ByteSize > MAX_CONTENT_SIZE then
    Except.error "Content exceeds 5MB limit"
  else Except.ok ()

/-- Validation at the head of `generate_playlist` (main.py lines 935-940):
the size gate, then the interval gate, which is only evaluated when
`data.auto_update` is set. -/
def generate_playlist_checks (content : String) (auto_update : Bool)
    (auto_update_interval : Int) : Except String Unit :=
  if content.utf8ByteSize > MAX_CONTENT_SIZE then
    Except.error "Content exceeds 5MB limit"
  else if auto_update &&
      (auto_update_interval < 30 || auto_update_interval > 86400) then
    Except.error "Interval must be between 30 and 86400 seconds"
  else Except.ok ()

/-- Model of `fetch_m3u` (main.py lines 970-988) after the HTTP call: a fetch error
becomes an HTTP error response, and a fetched body larger than the ceiling
is rejected. -/
def fetch_m3u (fetched : Except String String) : Except String String :=
  match fetched with
  | Except.error e => Except.error e
  | Except.ok content =>
    if content.utf8ByteSize > MAX_CONTENT_SIZE then
      Except.error "Content exceeds 5MB limit"
    else Except.ok content

/-- The interval validation of `update_my_playlist` (main.py lines
645-649), applied whenever the field is present in the request. -/
def update_my_playlist_interval_check (auto_update_interval : Option Int) :
    Except String Unit :=
  match auto_update_interval with
  | none => Except.ok ()
  | some i =>
    if i < 30 || i > 86400 then
      Except.error "Interval must be between 30 and 86400 seconds"
    else Except.ok ()

/-! ## Refresh paths (auto_update_task lines 255-298, refresh_playlist
lines 1071-1109) -/

/-- The playlist columns touched by a refresh attempt.  Timestamps are
epoch seconds (`NOW()` is passed in as `now`). -/
structure PlaylistRow where
  content_m3u : String
  last_update_at : Option Int
  update_error : Option String
deriving DecidableEq

/-- One scheduled refresh attempt for one selected playlist
(auto_update_task, main.py lines 272-294).  `fetched` is the outcome of the
`httpx` GET (`Except.error e` models a raised timeout / HTTP-status /
network exception with message `e`).  On success the rules are applied and
the row is updated with the new content, `last_update_at = NOW()` and a
cleared error; on any exception the row keeps its content and records
`update_error = str(e)` and `last_update_at = NOW()`. -/
def scheduledRefreshStep (reSub : RegexBackend) (row : PlaylistRow)
    (rules : List PyRule) (now : Int) (fetched : Except String String) :
    PlaylistRow :=
  match fetched with
  | Except.error e =>
    { row with update_error := some e, last_update_at := some now }
  | Except.ok content =>
    match apply_rules reSub content rules with
    | Except.error e =>
      { row with update_error := some e, last_update_at := some now }
    | Except.ok c =>
      { content_m3u := c, last_update_at := some now, update_error := none }

/-- One manual refresh (`refresh_playlist`, main.py lines 1086-1109) for a
playlist that has a source URL.  Returns the updated row together with the
error surfaced to the caller (`some e` models
`raise HTTPException(status_code=400, detail=str(e))`).  On failure only
`update_error` is written — `last_update_at` is not touched. -/
def manualRefreshStep (reSub : RegexBackend) (row : PlaylistRow)
    (rules : List PyRule) (now : Int) (fetched : Except String String) :
    PlaylistRow × Option String :=
  match fetched with
  | Except.error e => ({ row with update_error := some e }, some e)
  | Except.ok content =>
    match apply_rules reSub content rules with
    | Except.error e => ({ row with update_error := some e }, some e)
    | Except.ok c =>
      ({ content_m3u := c, last_update_at := some now, update_error := none },
       none)

/-! ## RefreshScheduler selection (auto_update_task, main.py lines 262-269) -/

/-- The playlist columns consulted by the scheduler's SELECT. -/
structure SchedRow where
  auto_update : Bool
  source_url : Option String
  last_update_at : Option Int
  auto_update_interval : Int
deriving DecidableEq

/-- The WHERE clause of the scheduler's SELECT (main.py lines 265-268):
`auto_update = TRUE AND source_url IS NOT NULL AND (last_update_at IS NULL
OR last_update_at < DATE_SUB(NOW(), INTERVAL auto_update_interval SECOND))`,
with timestamps as epoch seconds. -/
def dueForUpdate (p : SchedRow) (now : Int) : Bool :=
  p.auto_update && p.source_url.isSome &&
    (match p.last_update_at with
     | none => true
     | some t => decide (t < now - p.auto_update_interval))

/-- Modelled from the spec (§4.5, for comparison with the source):
`autoUpdate = true AND sourceUrl present AND (lastUpdateAt is null OR
now - lastUpdateAt >= autoUpdateInterval)`. -/
def specDueForUpdate (p : SchedRow) (now : Int) : Bool :=
  p.auto_update && p.source_url.isSome &&
    (match p.last_update_at with
     | none => true
     | some t => decide (now - t ≥ p.auto_update_interval))

/-! ## HealthChecker (check_source, main.py lines 325-352) -/

/-- The `status` column of `check_history` (enum OK / FAIL). -/
inductive CheckStatus where
  | OK
  | FAIL
deriving DecidableEq

/-- The `last_status` column of `playlists` (enum OK / FAIL / UNKNOWN). -/
inductive SourceStatus where
  | OK
  | FAIL
  | UNKNOWN
deriving DecidableEq

/-- A `check_history` row (main.py lines 345-348). -/
structure CheckRecord where
  token : String
  check_at : Int
  status : CheckStatus
  http_code : Option Nat
  error : Option String
deriving DecidableEq

/-- The playlist columns written by `check_source`. -/
structure PlaylistCheckFields where
  last_status : SourceStatus
  last_check_at : Option Int
  last_error : Option String
deriving DecidableEq

/-- The probe outcome computed by `check_source` (main.py lines 327-336)
from the HEAD response: `resp` is `Except.ok code` for a response with
status `code`, or `Except.error e` for a raised network/timeout exception
with message `e`.  Returns (status, http_code, error). -/
def check_source_outcome (resp : Except String Nat) :
    CheckStatus × Option Nat × Option String :=
  match resp with
  | Except.ok code =>
    (if code == 200 then CheckStatus.OK else CheckStatus.FAIL,
     some code,
     if code == 200 then none else some ("HTTP " ++ toString code))
  | Except.error e => (CheckStatus.FAIL, none, some e)

/-- The database effect of one `check_source` call (main.py lines 338-350):
set `last_status` / `last_check_at` / `last_error` on the playlist and
append one row to `check_history`. -/
def check_source_step (_fields : PlaylistCheckFields)
    (history : List CheckRecord) (token : String) (now : Int)
    (resp : Except String Nat) :
    PlaylistCheckFields × List CheckRecord :=
  let out := check_source_outcome resp
  ({ last_status :=
       match out.1 with
       | CheckStatus.OK => SourceStatus.OK
       | CheckStatus.FAIL => SourceStatus.FAIL,
     last_check_at := some now,
     last_error := out.2.2 },
   history ++ [{ token := token, check_at := now, status := out.1,
                 http_code := out.2.1, error := out.2.2 }])

/-! ## Concrete objects used by witnesses and counterexamples -/

/-- A regex backend on which every `re.sub` call raises `re.error`. -/
def noRegexBackend : RegexBackend := fun _ _ _ _ => none

/-- An ASCII document of exactly 5 MiB + 1 bytes. -/
def bigContent : String := String.mk (List.replicate (MAX_CONTENT_SIZE + 1) 'a')

end M3U

namespace M3U

/-! ## Helper lemmas about the rule engine -/

theorem apply_rules_append (reSub : RegexBackend) (rs1 rs2 : List PyRule) :
    ∀ content, apply_rules reSub content (rs1 ++ rs2) =
      (apply_rules reSub content rs1).bind fun c => apply_rules reSub c rs2 := by
  induction rs1 with
  | nil => intro content; simp [apply_rules, Except.bind]
  | cons r rs ih =>
    intro content
    simp only [List.cons_append, apply_rules]
    cases applyRule reSub content r with
    | error e => simp [Except.bind]
    | ok c => simpa [Except.bind] using ih c

theorem parseTemplate_no_backslash :
    ∀ l : List Char, (∀ c ∈ l, c ≠ '\\') → parseTemplate l = Except.ok l := by
  intro l
  induction l with
  | nil => intro _; rfl
  | cons c rest ih =>
    intro h
    have hc : c ≠ '\\' := h c (List.mem_cons_self c rest)
    have hrest : parseTemplate rest = Except.ok rest :=
      ih fun x hx => h x (List.mem_cons_of_mem c hx)
    rw [parseTemplate.eq_def]
    split <;> simp_all [Except.map]

/-! ## Claim C8 -/

/-- C8: for every document D, `apply(D, []) = D`; a rule whose pattern is
the empty string leaves the document unchanged; and rules are applied in
list order with each rule's output feeding the next (splitting the rule
list anywhere composes sequentially). -/
theorem c8_apply_rules_identity_and_order :
    ∀ (reSub : RegexBackend) (D : String),
      apply_rules reSub D [] = Except.ok D ∧
      (∀ (repl : String) (ir cs : Bool),
        apply_rules reSub D [⟨"", repl, ir, cs⟩] = Except.ok D) ∧
      (∀ rs1 rs2 : List PyRule,
        apply_rules reSub D (rs1 ++ rs2) =
          (apply_rules reSub D rs1).bind fun c => apply_rules reSub c rs2) := by
  intro reSub D
  exact ⟨rfl, fun repl ir cs => rfl,
    fun rs1 rs2 => apply_rules_append reSub rs1 rs2 D⟩

/-! ## Claim C7 -/

/-- C7: a regex rule on which every `re.sub` call raises `re.error`
(invalid pattern, or matching failure) is silently skipped: alone it leaves
the document unchanged and no exception escapes, and placed anywhere in a
rule list the remaining rules are still applied as if it were absent. -/
theorem c7_invalid_regex_rule_skipped :
    ∀ (reSub : RegexBackend) (r : PyRule),
      r.is_regex = true →
      (∀ content, reSub r.search r.replace r.case_sensitive content = none) →
      ∀ (D : String) (rs1 rs2 : List PyRule),
        apply_rules reSub D [r] = Except.ok D ∧
        apply_rules reSub D (rs1 ++ r :: rs2) =
          apply_rules reSub D (rs1 ++ rs2) := by
  intro reSub r hir hfail
  have hone : ∀ D, applyRule reSub D r = Except.ok D := by
    intro D
    rw [applyRule.eq_def]
    split
    · rfl
    · simp [hir, hfail D]
  intro D rs1 rs2
  refine ⟨by simp [apply_rules, hone D], ?_⟩
  rw [apply_rules_append, apply_rules_append]
  cases h1 : apply_rules reSub D rs1 with
  | error e => rfl
  | ok c => simp [Except.bind, apply_rules, hone c]

/-- Witness for C7: the concrete invalid pattern `(` with a surviving
second rule. -/
theorem c7_witness :
    apply_rules noRegexBackend "abc" [⟨"(", "x", true, true⟩] =
      Except.ok "abc" ∧
    apply_rules noRegexBackend "abc"
        ([] ++ ⟨"(", "x", true, true⟩ :: [⟨"b", "Z", false, true⟩]) =
      apply_rules noRegexBackend "abc" ([] ++ [⟨"b", "Z", false, true⟩]) :=
  c7_invalid_regex_rule_skipped noRegexBackend ⟨"(", "x", true, true⟩ rfl
    (fun _ => rfl) "abc" [] [⟨"b", "Z", false, true⟩]

/-! ## Claim C2 -/

/-- C2 counterexample: the claim "inserts the replacement string verbatim
... not interpreted" is false — a case-insensitive literal rule whose
replacement is the two characters `\\` inserts a single backslash, because
the source routes the replacement through `re.sub`'s template expansion;
verbatim insertion would give the two-character string. -/
theorem c2_counterexample :
    apply_rules noRegexBackend "A" [⟨"a", "\\\\", false, false⟩] =
      Except.ok "\\" ∧
    ciReplaceVerbatim "a" "\\\\" "A" = "\\\\" ∧
    ("\\" : String) ≠ "\\\\" :=
  ⟨rfl, rfl, by decide⟩

/-- C2 amended: for a non-regex rule with `caseSensitive = false`, a
non-empty pattern, and a replacement containing no backslash (so that
`re.sub` template expansion is the identity on it), apply replaces all
case-insensitive occurrences of the pattern and inserts the replacement
string verbatim, character for character, not case-adapted to the match. -/
theorem c2_ci_literal_replace_verbatim :
    ∀ (reSub : RegexBackend) (D search repl : String),
      search ≠ "" → (∀ c ∈ repl.data, c ≠ '\\') →
      apply_rules reSub D [⟨search, repl, false, false⟩] =
        Except.ok (ciReplaceVerbatim search repl D) := by
  intro reSub D search repl hs hrepl
  have hdata : search.data ≠ [] := by
    intro h
    apply hs
    apply String.ext
    simpa using h
  have hpt := parseTemplate_no_backslash repl.data hrepl
  cases hd : search.data with
  | nil => exact absurd hd hdata
  | cons p0 pt =>
    simp [apply_rules, applyRule, hd, hpt, ciReplaceVerbatim]

/-- Witness for C2 at the spec's own example: `"Foo" -> "X"` on
`"foo FOO fOo"` yields `"X X X"`. -/
theorem c2_witness :
    ("Foo" : String) ≠ "" ∧
    apply_rules noRegexBackend "foo FOO fOo" [⟨"Foo", "X", false, false⟩] =
      Except.ok "X X X" := by
  have h := c2_ci_literal_replace_verbatim noRegexBackend "foo FOO fOo"
    "Foo" "X" (by decide) (by decide)
  exact ⟨by decide, by rw [h]; rfl⟩

/-! ## Claim C1 -/

/-- C1 counterexample: the claim asserts that on a fetch failure the
last-update timestamp advances to now "identically" for the scheduled
cycle and for manualRefresh; but the manual refresh failure branch writes
only `update_error` and leaves `last_update_at` at its old value, while the
scheduled branch does advance it. -/
theorem c1_counterexample :
    (manualRefreshStep noRegexBackend ⟨"keep", some 5, none⟩ [] 10
        (Except.error "timeout")).1.last_update_at = some 5 ∧
    (manualRefreshStep noRegexBackend ⟨"keep", some 5, none⟩ [] 10
        (Except.error "timeout")).1.last_update_at ≠ some 10 ∧
    (scheduledRefreshStep noRegexBackend ⟨"keep", some 5, none⟩ [] 10
        (Except.error "timeout")).last_update_at = some 10 :=
  ⟨rfl, by decide, rfl⟩

/-- C1 amended: on a fetch failure, the scheduled refresh persists the
failure description as `update_error`, advances `last_update_at` to now and
leaves the content unchanged; manualRefresh persists the failure
description and leaves both the content and `last_update_at` unchanged,
surfacing the error to the caller immediately. -/
theorem c1_refresh_failure_effects :
    ∀ (reSub : RegexBackend) (row : PlaylistRow) (rules : List PyRule)
      (now : Int) (e : String),
      scheduledRefreshStep reSub row rules now (Except.error e) =
        { row with update_error := some e, last_update_at := some now } ∧
      manualRefreshStep reSub row rules now (Except.error e) =
        ({ row with update_error := some e }, some e) :=
  fun _ _ _ _ _ => ⟨rfl, rfl⟩

/-! ## Claim C4 -/

/-- C4 counterexample: a playlist whose elapsed time exactly equals its
interval is not selected by the scheduler's WHERE clause (the comparison is
strict), although the claim says it is selected. -/
theorem c4_counterexample :
    dueForUpdate ⟨true, some "http://u", some 100, 50⟩ 150 = false ∧
    specDueForUpdate ⟨true, some "http://u", some 100, 50⟩ 150 = true :=
  ⟨rfl, rfl⟩

/-- C4 amended: on every scheduler tick the selected playlists are exactly
those with `autoUpdate = true`, a source URL present, and `lastUpdateAt`
null or `now - lastUpdateAt` strictly greater than `autoUpdateInterval`; a
playlist with `autoUpdate = false` is never selected regardless of its
timestamps, and one whose elapsed time exactly equals its interval is not
selected. -/
theorem c4_selection_predicate :
    ∀ (p : SchedRow) (now : Int),
      (dueForUpdate p now =
        (p.auto_update && p.source_url.isSome &&
          (match p.last_update_at with
           | none => true
           | some t => decide (now - t > p.auto_update_interval)))) ∧
      dueForUpdate { p with auto_update := false } now = false ∧
      (∀ t : Int, dueForUpdate { p with last_update_at := some t }
          (t + p.auto_update_interval) = false) := by
  intro p now
  refine ⟨?_, by simp [dueForUpdate], ?_⟩
  · unfold dueForUpdate
    cases p.last_update_at with
    | none => rfl
    | some t =>
      have h : (t < now - p.auto_update_interval) ↔
          (now - t > p.auto_update_interval) := by omega
      simp only [h]
  · intro t
    have : decide (t < t + p.auto_update_interval - p.auto_update_interval) =
        false := by
      simp only [decide_eq_false_iff_not]
      omega
    simp [dueForUpdate, this]

/-! ## Claim C5 -/

/-- C5 counterexample: a generate request with `autoUpdate = false` (the
request default) and interval 29 passes validation — the interval gate in
`generate_playlist` is only evaluated when `auto_update` is set, so the
domain is not enforced at every write of the field. -/
theorem c5_counterexample :
    generate_playlist_checks "" false 29 = Except.ok () :=
  rfl

/-- C5 amended: in `generate_playlist` the interval domain [30, 86400] is
enforced only when `autoUpdate` is true (29 and 86401 then fail, 30 and
86400 succeed); with `autoUpdate` false any interval passes validation and
is persisted as sent; the update endpoint enforces the domain whenever the
field is present in the request. -/
theorem c5_interval_domain :
    ∀ (content : String) (i : Int),
      (content.utf8ByteSize ≤ MAX_CONTENT_SIZE →
        (generate_playlist_checks content true i = Except.ok () ↔
          30 ≤ i ∧ i ≤ 86400)) ∧
      (content.utf8ByteSize ≤ MAX_CONTENT_SIZE →
        generate_playlist_checks content false i = Except.ok ()) ∧
      (update_my_playlist_interval_check (some i) = Except.ok () ↔
        30 ≤ i ∧ i ≤ 86400) ∧
      update_my_playlist_interval_check none = Except.ok () := by
  intro content i
  refine ⟨fun h => ?_, fun h => ?_, ?_, rfl⟩
  · have hn : ¬ content.utf8ByteSize > MAX_CONTENT_SIZE := by omega
    by_cases hi : i < 30 ∨ i > 86400 <;>
      simp [generate_playlist_checks, hn, hi] <;> omega
  · have hn : ¬ content.utf8ByteSize > MAX_CONTENT_SIZE := by omega
    simp [generate_playlist_checks, hn]
  · by_cases hi : i < 30 ∨ i > 86400 <;>
      simp [update_my_playlist_interval_check, hi] <;> omega

/-- Witness for C5 at interval 30 with a small document. -/
theorem c5_witness :
    ("x" : String).utf8ByteSize ≤ MAX_CONTENT_SIZE ∧
    generate_playlist_checks "x" true 30 = Except.ok () := by
  have h := (c5_interval_domain "x" 30).1 (by decide)
  exact ⟨by decide, h.mpr (by decide)⟩

/-! ## Claim C9 -/

/-- C9: a probe records OK exactly when the HTTP response status is 200;
any other status or any raised network/timeout error records FAIL together
with a descriptive error string (the error field is null exactly on OK);
and every probe appends exactly one CheckRecord and writes `last_status`,
`last_check_at` and `last_error` together in the same step. -/
theorem c9_check_source_probe :
    ∀ (resp : Except String Nat) (fields : PlaylistCheckFields)
      (history : List CheckRecord) (token : String) (now : Int),
      ((check_source_outcome resp).1 = CheckStatus.OK ↔
        resp = Except.ok 200) ∧
      ((check_source_outcome resp).2.2 = none ↔
        (check_source_outcome resp).1 = CheckStatus.OK) ∧
      check_source_step fields history token now resp =
        ({ last_status :=
             match (check_source_outcome resp).1 with
             | CheckStatus.OK => SourceStatus.OK
             | CheckStatus.FAIL => SourceStatus.FAIL,
           last_check_at := some now,
           last_error := (check_source_outcome resp).2.2 },
         history ++ [{ token := token, check_at := now,
                       status := (check_source_outcome resp).1,
                       http_code := (check_source_outcome resp).2.1,
                       error := (check_source_outcome resp).2.2 }]) := by
  intro resp fields history token now
  refine ⟨?_, ?_, rfl⟩
  · cases resp with
    | error e => simp [check_source_outcome]
    | ok code =>
      by_cases h : code = 200 <;> simp [check_source_outcome, h]
  · cases resp with
    | error e => simp [check_source_outcome]
    | ok code =>
      by_cases h : code = 200 <;> simp [check_source_outcome, h]

/-! ## Claim C3 -/

/-- Helper: the UTF-8 byte size of a replicated ASCII `'a'` string is its
character count. -/
theorem utf8ByteSize_replicate_a :
    ∀ n : Nat, (String.mk (List.replicate n 'a')).utf8ByteSize = n := by
  intro n
  show String.utf8ByteSize.go (List.replicate n 'a') = n
  induction n with
  | zero => rfl
  | succ n ih =>
    rw [List.replicate_succ]
    show String.utf8ByteSize.go (List.replicate n 'a') + 'a'.utf8Size = n + 1
    rw [ih, show 'a'.utf8Size = 1 from by decide]

/-- C3 counterexample: a fetched document of 5 MiB + 1 bytes is not
rejected on the refresh paths — both the scheduled task and the manual
refresh persist it as the new content, with no size gate; the claim's
"uniformly across ... refresh paths" is false. -/
theorem c3_counterexample :
    bigContent.utf8ByteSize = MAX_CONTENT_SIZE + 1 ∧
    (manualRefreshStep noRegexBackend ⟨"old", none, none⟩ [] 0
        (Except.ok bigContent)).1.content_m3u = bigContent ∧
    (scheduledRefreshStep noRegexBackend ⟨"old", none, none⟩ [] 0
        (Except.ok bigContent)).content_m3u = bigContent :=
  ⟨utf8ByteSize_replicate_a _, rfl, rfl⟩

/-- C3 amended: documents whose UTF-8 encoding exceeds 5 MiB are rejected
(and exactly 5 MiB accepted) on the process, generate and fetch paths; the
refresh paths (scheduled and manual) perform no size check and persist a
fetched document of any size. -/
theorem c3_size_ceiling_paths :
    ∀ content : String,
      (process_m3u_gate content = Except.ok () ↔
        content.utf8ByteSize ≤ MAX_CONTENT_SIZE) ∧
      (∀ i : Int, generate_playlist_checks content false i = Except.ok () ↔
        content.utf8ByteSize ≤ MAX_CONTENT_SIZE) ∧
      (fetch_m3u (Except.ok content) = Except.ok content ↔
        content.utf8ByteSize ≤ MAX_CONTENT_SIZE) ∧
      (∀ (reSub : RegexBackend) (row : PlaylistRow) (now : Int),
        (scheduledRefreshStep reSub row [] now
            (Except.ok content)).content_m3u = content ∧
        (manualRefreshStep reSub row [] now
            (Except.ok content)).1.content_m3u = content) := by
  intro content
  by_cases h : content.utf8ByteSize > MAX_CONTENT_SIZE
  · refine ⟨?_, fun i => ?_, ?_, fun reSub row now => ⟨rfl, rfl⟩⟩ <;>
      simp [process_m3u_gate, generate_playlist_checks, fetch_m3u, h] <;>
      omega
  · refine ⟨?_, fun i => ?_, ?_, fun reSub row now => ⟨rfl, rfl⟩⟩ <;>
      simp [process_m3u_gate, generate_playlist_checks, fetch_m3u, h] <;>
      omega

/-! ## Claim C10 -/

/-- Helper: `subScan` equation on an empty subject. -/
theorem subScan_nil (eq : Char → Char → Bool) (p0 : Char)
    (ptail repl : List Char) (skip : Nat) :
    subScan eq p0 ptail repl skip [] = [] := by
  cases skip <;> rfl

/-- Helper: `subScan` equation while consuming a match. -/
theorem subScan_succ_cons (eq : Char → Char → Bool) (p0 : Char)
    (ptail repl : List Char) (skip : Nat) (c : Char) (l : List Char) :
    subScan eq p0 ptail repl (skip + 1) (c :: l) =
      subScan eq p0 ptail repl skip l := rfl

/-- Helper: `subScan` equation at a fresh scanning position. -/
theorem subScan_zero_cons (eq : Char → Char → Bool) (p0 : Char)
    (ptail repl : List Char) (c : Char) (l : List Char) :
    subScan eq p0 ptail repl 0 (c :: l) =
      if matchPref eq (p0 :: ptail) (c :: l) then
        repl ++ subScan eq p0 ptail repl ptail.length l
      else c :: subScan eq p0 ptail repl 0 l := rfl

/-- Helper: appending the token suffix `.m3u` never completes a match of
`m3u` that was not already there (no occurrence of `.m3u` can span the
boundary, because `.m3u` begins with `.`). -/
theorem matchPref_m3u_append (rest : List Char) :
    matchPref charEq ['m', '3', 'u'] (rest ++ ['.', 'm', '3', 'u']) =
      matchPref charEq ['m', '3', 'u'] rest := by
  rcases rest with _ | ⟨a, _ | ⟨b, _ | ⟨c, t⟩⟩⟩ <;> rfl

/-- Helper: the `.m3u` match condition is unchanged by appending `.m3u`. -/
theorem matchPref_pat4_cons_append (c : Char) (rest : List Char) :
    matchPref charEq ['.', 'm', '3', 'u'] (c :: (rest ++ ['.', 'm', '3', 'u'])) =
      matchPref charEq ['.', 'm', '3', 'u'] (c :: rest) := by
  show (charEq '.' c &&
      matchPref charEq ['m', '3', 'u'] (rest ++ ['.', 'm', '3', 'u'])) =
    (charEq '.' c && matchPref charEq ['m', '3', 'u'] rest)
  rw [matchPref_m3u_append]

/-- Helper: a successful `matchPref` needs at least the pattern's length. -/
theorem matchPref_length_le (eq : Char → Char → Bool) :
    ∀ (s l : List Char), matchPref eq s l = true → s.length ≤ l.length := by
  intro s
  induction s with
  | nil => intro l _; simp
  | cons a pa ih =>
    intro l h
    cases l with
    | nil => simp [matchPref] at h
    | cons b pb =>
      simp only [matchPref, Bool.and_eq_true] at h
      have := ih pb h.2
      simp [List.length_cons]
      omega

/-- Helper: replacing `.m3u` by the empty string commutes with appending
one `.m3u` suffix, for any scan state that stays inside the prefix. -/
theorem subScan_append_pat :
    ∀ (l : List Char) (skip : Nat), skip ≤ l.length →
      subScan charEq '.' ['m', '3', 'u'] [] skip (l ++ ['.', 'm', '3', 'u']) =
        subScan charEq '.' ['m', '3', 'u'] [] skip l := by
  intro l
  induction l with
  | nil =>
    intro skip hskip
    have : skip = 0 := Nat.le_zero.mp hskip
    subst this
    rfl
  | cons c rest ih =>
    intro skip hskip
    cases skip with
    | succ skip =>
      rw [List.cons_append, subScan_succ_cons, subScan_succ_cons]
      exact ih skip (by simpa using hskip)
    | zero =>
      rw [List.cons_append, subScan_zero_cons, subScan_zero_cons,
        matchPref_pat4_cons_append]
      by_cases hm : matchPref charEq ['.', 'm', '3', 'u'] (c :: rest) = true
      · have hlen := matchPref_length_le charEq _ _ hm
        simp only [hm, if_true]
        rw [ih _ (by simp at hlen ⊢; omega)]
      · rw [Bool.not_eq_true] at hm
        simp only [hm, Bool.false_eq_true, if_false]
        rw [ih 0 (Nat.zero_le _)]

/-- Helper: the scan never lengthens the subject (the replacement here is
empty). -/
theorem subScan_length_le :
    ∀ (l : List Char) (skip : Nat),
      (subScan charEq '.' ['m', '3', 'u'] [] skip l).length ≤ l.length := by
  intro l
  induction l with
  | nil => intro skip; rw [subScan_nil]
  | cons c rest ih =>
    intro skip
    cases skip with
    | succ skip =>
      rw [subScan_succ_cons]
      exact Nat.le_succ_of_le (ih skip)
    | zero =>
      rw [subScan_zero_cons]
      by_cases hm : matchPref charEq ['.', 'm', '3', 'u'] (c :: rest) = true
      · simp only [hm, if_true, List.nil_append]
        exact Nat.le_succ_of_le (ih 3)
      · rw [Bool.not_eq_true] at hm
        simp only [hm, Bool.false_eq_true, if_false, List.length_cons]
        exact Nat.succ_le_succ (ih 0)

/-- Helper: scanning a subject that contains `.m3u` strictly shortens it. -/
theorem subScan_infix_length_lt :
    ∀ (s t : List Char),
      (subScan charEq '.' ['m', '3', 'u'] [] 0
          (s ++ '.' :: 'm' :: '3' :: 'u' :: t)).length <
        (s ++ '.' :: 'm' :: '3' :: 'u' :: t).length := by
  intro s
  induction s with
  | nil =>
    intro t
    have h1 : subScan charEq '.' ['m', '3', 'u'] [] 0
        ('.' :: 'm' :: '3' :: 'u' :: t) =
        subScan charEq '.' ['m', '3', 'u'] [] 0 t := rfl
    simp only [List.nil_append, h1]
    have := subScan_length_le t 0
    simp only [List.length_cons]
    omega
  | cons c s' ih =>
    intro t
    rw [List.cons_append, subScan_zero_cons]
    by_cases hm : matchPref charEq ['.', 'm', '3', 'u']
        (c :: (s' ++ '.' :: 'm' :: '3' :: 'u' :: t)) = true
    · rw [if_pos hm, List.nil_append,
        show (['m', '3', 'u'] : List Char).length = 3 from rfl]
      have := subScan_length_le (s' ++ '.' :: 'm' :: '3' :: 'u' :: t) 3
      simp only [List.length_cons, List.cons_append]
      omega
    · rw [Bool.not_eq_true] at hm
      simp only [hm, Bool.false_eq_true, if_false, List.length_cons,
        List.cons_append]
      have := ih t
      omega

/-- C10 counterexample: the claim that a stored token containing `.m3u`
can never be retrieved is false — the single left-to-right replacement pass
can create a new `.m3u` by juxtaposition, so the request token `.m.m3u3u`
normalizes to exactly the stored token `.m3u`, which contains `.m3u`. -/
theorem c10_counterexample :
    get_raw_m3u_token ".m.m3u3u" = ".m3u" ∧
    (∃ s t : List Char,
      (".m3u" : String).data = s ++ ('.' :: 'm' :: '3' :: 'u' :: []) ++ t) :=
  ⟨rfl, [], [], rfl⟩

/-- C10 amended: the endpoint removes the occurrences of `.m3u` found in
one left-to-right scan of the token before looking up the playlist, so
requests for `t.m3u` and for `t` resolve to the same record; and a stored
token that contains `.m3u` anywhere inside it is never equal to its own
normalization, so requesting that exact token cannot retrieve it (though a
different request token may normalize onto it, as the replacement pass can
form a new `.m3u` by juxtaposition). -/
theorem c10_raw_token_normalization :
    ∀ token : String,
      get_raw_m3u_token (token ++ ".m3u") = get_raw_m3u_token token ∧
      (∀ stored : String,
        (∃ s t : List Char,
          stored.data = s ++ ('.' :: 'm' :: '3' :: 'u' :: []) ++ t) →
        get_raw_m3u_token stored ≠ stored) := by
  intro token
  constructor
  · show String.mk (subScan charEq '.' ['m', '3', 'u'] [] 0
        (token ++ ".m3u").data) = String.mk _
    have hdata : (token ++ ".m3u").data = token.data ++ ['.', 'm', '3', 'u'] := by
      cases token with
      | mk d => rfl
    rw [hdata, subScan_append_pat token.data 0 (Nat.zero_le _)]
  · rintro stored ⟨s, t, hst⟩ h
    have hdata : subScan charEq '.' ['m', '3', 'u'] [] 0 stored.data =
        stored.data := congrArg String.data h
    have hlt := subScan_infix_length_lt s t
    have hst' : stored.data = s ++ '.' :: 'm' :: '3' :: 'u' :: t := by
      rw [hst]; simp
    rw [← hst', hdata] at hlt
    exact Nat.lt_irrefl _ hlt

/-- Witness for C10: the stored token `x.m3u` contains `.m3u` and cannot
be retrieved by requesting it verbatim. -/
theorem c10_witness : get_raw_m3u_token "x.m3u" ≠ "x.m3u" :=
  (c10_raw_token_normalization "x").2 "x.m3u" ⟨['x'], [], rfl⟩

/-! ## Claim C6 -/

/-- Helper: `countScan` equation while consuming a match. -/
theorem countScan_succ_cons (p0 : Char) (ptail : List Char) (skip : Nat)
    (c : Char) (l : List Char) :
    countScan p0 ptail (skip + 1) (c :: l) = countScan p0 ptail skip l := rfl

/-- Helper: `countScan` equation at a fresh scanning position. -/
theorem countScan_zero_cons (p0 : Char) (ptail : List Char) (c : Char)
    (l : List Char) :
    countScan p0 ptail 0 (c :: l) =
      if matchPref charCI (p0 :: ptail) (c :: l) then
        countScan p0 ptail ptail.length l + 1
      else countScan p0 ptail 0 l := rfl

/-- Helper: a character case-insensitively equal to a letter of
`EXTINF:` cannot also start the marker, whose first character is `#`. -/
theorem charCI_hash_false (p x : Char)
    (hne : ('#'.toLower == p.toLower) = false)
    (h : p.toLower = x.toLower) : charCI '#' x = false := by
  unfold charCI
  rw [← h]
  exact hne

/-- Helper: the marker does not match at a position whose first character
is not case-insensitively `#`. -/
theorem matchPref_extinf_head_false (x : Char) (l : List Char)
    (h : charCI '#' x = false) :
    matchPref charCI extinfPat (x :: l) = false := by
  simp [extinfPat, matchPref, h]

/-- Helper: the marker `#EXTINF:` cannot overlap itself — if it matches at
one position, it matches at none of the next seven. -/
theorem matchPref_extinf_no_overlap (c : Char) (rest : List Char)
    (h : matchPref charCI extinfPat (c :: rest) = true) :
    ∀ i, i < 7 → matchPref charCI extinfPat (rest.drop i) = false := by
  rcases rest with _ | ⟨r1, _ | ⟨r2, _ | ⟨r3, _ | ⟨r4, _ | ⟨r5, _ | ⟨r6,
    _ | ⟨r7, t⟩⟩⟩⟩⟩⟩⟩ <;>
    simp [extinfPat, matchPref, charCI] at h
  obtain ⟨h0, h1, h2, h3, h4, h5, h6, h7⟩ := h
  intro i hi
  interval_cases i <;> simp only [List.drop]
  · exact matchPref_extinf_head_false r1 _ (charCI_hash_false 'E' r1 (by decide) h1)
  · exact matchPref_extinf_head_false r2 _ (charCI_hash_false 'X' r2 (by decide) h2)
  · exact matchPref_extinf_head_false r3 _ (charCI_hash_false 'T' r3 (by decide) h3)
  · exact matchPref_extinf_head_false r4 _ (charCI_hash_false 'I' r4 (by decide) h4)
  · exact matchPref_extinf_head_false r5 _ (charCI_hash_false 'N' r5 (by decide) h5)
  · exact matchPref_extinf_head_false r6 _ (charCI_hash_false 'F' r6 (by decide) h6)
  · exact matchPref_extinf_head_false r7 _ (charCI_hash_false ':' r7 (by decide) h7)

/-- Helper: the non-overlapping scan of `re.findall(r'#EXTINF:', ...,
re.IGNORECASE)` counts exactly the positions at which the marker matches,
provided no match begins in the region the scan is still skipping. -/
theorem countScan_eq_tails_count :
    ∀ (l : List Char) (skip : Nat),
      (∀ i, i < skip → matchPref charCI extinfPat (l.drop i) = false) →
      countScan '#' ['E', 'X', 'T', 'I', 'N', 'F', ':'] skip l =
        l.tails.countP (fun t => matchPref charCI extinfPat t) := by
  intro l
  induction l with
  | nil =>
    intro skip _
    simp [countScan, List.tails, matchPref, extinfPat]
  | cons c rest ih =>
    intro skip hskip
    have hpat : ('#' :: ['E', 'X', 'T', 'I', 'N', 'F', ':']) = extinfPat := rfl
    cases skip with
    | succ skip =>
      have h0 : matchPref charCI extinfPat (c :: rest) = false := by
        simpa using hskip 0 (Nat.succ_pos _)
      rw [countScan_succ_cons, List.tails_cons, List.countP_cons]
      rw [ih skip (fun i hi => by
        simpa [List.drop] using hskip (i + 1) (by omega))]
      simp [h0]
    | zero =>
      rw [countScan_zero_cons, List.tails_cons, List.countP_cons, hpat]
      by_cases hm : matchPref charCI extinfPat (c :: rest) = true
      · rw [ih _ (fun i hi => matchPref_extinf_no_overlap c rest hm i
          (by simpa using hi))]
        simp [hm]
      · rw [Bool.not_eq_true] at hm
        rw [ih 0 (fun i hi => absurd hi (Nat.not_lt_zero i))]
        simp [hm]

/-- Helper: `splitNl` never returns the empty list. -/
theorem splitNl_ne_nil : ∀ l : List Char, splitNl l ≠ [] := by
  intro l
  rw [splitNl.eq_def]
  split
  · simp
  · simp
  · split <;> simp

/-- Helper: Python `split('\n')` yields one more segment than there are
newline characters. -/
theorem splitNl_length :
    ∀ l : List Char, (splitNl l).length = l.count '\n' + 1 := by
  intro l
  induction l with
  | nil => simp [splitNl]
  | cons c rest ih =>
    rw [splitNl.eq_def]
    split
    · simp_all
    · rename_i heq
      injection heq with hc hrest
      subst hc hrest
      simp [List.count_cons, ih]
    · rename_i hne heq
      injection heq with hc hrest
      subst hc hrest
      have hcne : (c == '\n') = false := by
        rw [Bool.eq_false_iff]
        intro hb
        exact hne (eq_of_beq hb)
      cases hsp : splitNl rest with
      | nil => exact absurd hsp (splitNl_ne_nil rest)
      | cons hd tl =>
        show ((c :: hd) :: tl).length = List.count '\n' (c :: rest) + 1
        rw [hsp] at ih
        simp only [List.length_cons] at ih ⊢
        rw [List.count_cons]
        simp only [hcne, if_false, Bool.false_eq_true]
        omega

/-- C6 counterexample: on the one-line document
`x#EXTINF: group-title="A" group-title="B"` the code reports
`entries = 1` although no line begins with the marker (the findall scan
counts occurrences anywhere in the line), and reports `groups = 1`
although two distinct group-title values occur (only the first match per
line is collected). -/
theorem c6_counterexample :
    (get_m3u_stats "x#EXTINF: group-title=\"A\" group-title=\"B\"").channels
      = 1 ∧
    specEntriesLineStart "x#EXTINF: group-title=\"A\" group-title=\"B\"" = 0 ∧
    (get_m3u_stats "x#EXTINF: group-title=\"A\" group-title=\"B\"").groups
      = 1 ∧
    ((allGroupTitleValues
        ("x#EXTINF: group-title=\"A\" group-title=\"B\"" : String).data).dedup).length
      = 2 :=
  ⟨rfl, rfl, rfl, rfl⟩

/-- C6 amended: for every document, stats reports `entries` = the number
of positions anywhere in the document (not only line starts) at which the
marker `#EXTINF:` matches case-insensitively; `groups` = the number of
distinct values among the first `group-title="..."` captured on each line,
deduplicated as a set; `lines` = the number of newline-split segments,
which is the newline count plus one; and `sizeBytes` = the UTF-8 byte
length; in particular the spec's two-entry document reports
`entries = 2`. -/
theorem c6_stats_characterization :
    ∀ content : String,
      (get_m3u_stats content).channels = extinfPositions content.data ∧
      (get_m3u_stats content).groups =
        ((splitNl content.data).filterMap lineGroupTitle).toFinset.card ∧
      (get_m3u_stats content).lines = content.data.count '\n' + 1 ∧
      (get_m3u_stats content).size = content.utf8ByteSize ∧
      (get_m3u_stats "#EXTINF:...\n#EXTINF:...\n").channels = 2 := by
  intro content
  refine ⟨?_, ?_, ?_, rfl, rfl⟩
  · show countScan '#' ['E', 'X', 'T', 'I', 'N', 'F', ':'] 0 content.data = _
    rw [countScan_eq_tails_count content.data 0
      (fun i hi => absurd hi (Nat.not_lt_zero i))]
    rfl
  · show ((splitNl content.data).filterMap lineGroupTitle).dedup.length = _
    rw [List.card_toFinset]
  · exact splitNl_length content.data

end M3U
